import Mathlib

/-!
Verification development for the PrinterProtocol repository.

The Python sources are embedded shallowly:
* Python values that flow through dictionaries are modelled by `PyVal`
  (floats become exact rationals `Rat`; every float operation appearing in
  the embedded code is an assignment, a comparison or a subtraction on
  values produced from decimal literals, so `Rat` is faithful there).
* Python dictionaries become association lists with first-match lookup;
  the dictionaries manipulated by the code have pairwise distinct keys.
* Fallible Python code becomes `Except PyErr` (or an explicit error
  component), with `PyErr` covering the exception classes the sources
  raise or catch.
-/

/-- Python exception classes appearing in the embedded sources. -/
inductive PyErr where
  | keyError (msg : String)
  | valueError (msg : String)
  | typeError (msg : String)
  | indexError (msg : String)
  | attributeError (msg : String)
deriving DecidableEq, Repr

/-- Python runtime values as they appear in the command envelopes and
value maps of the repository: `None`, strings, floats (as exact
rationals), ints, bools, dicts and lists. -/
inductive PyVal where
  | none
  | str (s : String)
  | num (q : Rat)
  | intv (n : Int)
  | boolv (b : Bool)
  | dict (entries : List (String × PyVal))
  | list (items : List PyVal)

/-- Python `v is None`. -/
def PyVal.isNone : PyVal → Bool
  | .none => true
  | _ => false

/-- `d.get(k)` on a Python dict: first-match lookup. -/
def pyDictGet (d : List (String × PyVal)) (k : String) : Option PyVal :=
  (d.find? (fun p => p.1 == k)).map (fun p => p.2)

/-- `d.get(k, default)` on a Python dict. -/
def pyDictGetD (d : List (String × PyVal)) (k : String) (dflt : PyVal) : PyVal :=
  (pyDictGet d k).getD dflt

/-- `d[k] = val` on a Python dict: replace the value in place when the key
is present, append otherwise. -/
def pyDictSet (d : List (String × PyVal)) (k : String) (val : PyVal) :
    List (String × PyVal) :=
  if (d.find? (fun p => p.1 == k)).isSome then
    d.map (fun p => if p.1 == k then (k, val) else p)
  else
    d ++ [(k, val)]

/-- Python truthiness of a value (`bool(v)`). -/
def pyTruthy : PyVal → Bool
  | .none => false
  | .str s => s != ""
  | .num q => q != 0
  | .intv n => n != 0
  | .boolv b => b
  | .dict entries => !entries.isEmpty
  | .list items => !items.isEmpty

/-- Python `a or b`. -/
def pyOr (a b : PyVal) : PyVal := if pyTruthy a then a else b

/-- Rational addition in a kernel-evaluable form (`mkRat` on cross
products); `qAdd_eq` identifies it with `+` on `ℚ`. -/
def qAdd (a b : Rat) : Rat :=
  mkRat (a.num * (b.den : Int) + b.num * (a.den : Int)) (a.den * b.den)

/-- Rational subtraction in a kernel-evaluable form; `qSub_eq`
identifies it with `-` on `ℚ`. -/
def qSub (a b : Rat) : Rat :=
  mkRat (a.num * (b.den : Int) - b.num * (a.den : Int)) (a.den * b.den)

/-- Value of a nonempty digit run, most significant first. -/
def digitsVal (l : List Char) : Nat :=
  l.foldl (fun a c => a * 10 + (c.toNat - 48)) 0

/-- Parser for Python `float(<str>)` restricted to finite decimal
literals: optional sign, digits with an optional fractional part, and an
optional decimal exponent.  The input is assumed already stripped.
`inf`/`nan` spellings and underscore separators are outside the `Rat`
model and are not produced by this repository's data. -/
def parseFloatChars (l : List Char) : Option Rat :=
  let (neg, l1) :=
    match l with
    | '-' :: rest => (true, rest)
    | '+' :: rest => (false, rest)
    | _ => (false, l)
  let intPart := l1.takeWhile Char.isDigit
  let l2 := l1.dropWhile Char.isDigit
  let (fracPart, l3) :=
    match l2 with
    | '.' :: rest => (rest.takeWhile Char.isDigit, rest.dropWhile Char.isDigit)
    | _ => ([], l2)
  if intPart = [] ∧ fracPart = [] then Option.none
  else
    let expOpt : Option Int :=
      match l3 with
      | [] => some 0
      | 'e' :: rest => parseExp rest
      | 'E' :: rest => parseExp rest
      | _ => Option.none
    match expOpt with
    | Option.none => Option.none
    | some e =>
      let m : Nat := digitsVal (intPart ++ fracPart)
      let p : Int := e - (fracPart.length : Int)
      let mag : Rat :=
        if 0 ≤ p then mkRat (Int.ofNat (m * Nat.pow 10 p.toNat)) 1
        else mkRat (Int.ofNat m) (Nat.pow 10 (-p).toNat)
      some (if neg then -mag else mag)
where
  parseExp (rest : List Char) : Option Int :=
    let (eneg, r1) :=
      match rest with
      | '-' :: r => (true, r)
      | '+' :: r => (false, r)
      | _ => (false, rest)
    let eDigits := r1.takeWhile Char.isDigit
    let r2 := r1.dropWhile Char.isDigit
    if eDigits = [] ∨ r2 ≠ [] then Option.none
    else if eneg then some (-(digitsVal eDigits : Int))
    else some (digitsVal eDigits : Int)

/-- Python `s.strip()`: drop leading and trailing whitespace.  (Lean's
`Char.isWhitespace` covers space, tab, CR and LF; Python additionally
strips `\x0b`/`\x0c`, which do not occur in this repository's data.) -/
def pyStrip (s : String) : String :=
  String.mk (((s.data.dropWhile Char.isWhitespace).reverse.dropWhile
    Char.isWhitespace).reverse)

/-- Python `float(<str>)`: strip surrounding whitespace, then parse. -/
def parseFloatStr (s : String) : Option Rat :=
  parseFloatChars (pyStrip s).data

/-- Python `float(v)` on an arbitrary value. -/
def pyFloat : PyVal → Except PyErr Rat
  | .num q => .ok q
  | .intv n => .ok (n : Rat)
  | .boolv b => .ok (if b then 1 else 0)
  | .str s =>
    match parseFloatStr s with
    | some q => .ok q
    | _ => .error (.valueError "could not convert string to float")
  | .none => .error (.typeError "float argument must be a string or a real number")
  | .dict _ => .error (.typeError "float argument must be a string or a real number")
  | .list _ => .error (.typeError "float argument must be a string or a real number")

/-- Python `str(v)`.  The textual rendering of floats and containers is
abstracted (Python's shortest-roundtrip float repr is not modelled); no
claim depends on the rendered text of a non-string value. -/
def pyStr : PyVal → String
  | .none => "None"
  | .str s => s
  | .num q => toString q.num ++ "/" ++ toString q.den
  | .intv n => toString n
  | .boolv b => if b then "True" else "False"
  | .dict _ => "<dict>"
  | .list _ => "<list>"

/-! ## src/utils/pd41.py — helpers, `udi_string`, `ScleralLabelTemplate` -/

/-- `left(s, n)`: Python `s[:n]`. -/
def left (s : String) (n : Nat) : String := s.take n

/-- `right(s, n)`: Python `s[-n:] if n > 0 else ""`. -/
def right (s : String) (n : Nat) : String :=
  if n > 0 then s.takeRight n else ""

/-- `trim_right_spaces(s)`: Python `s.rstrip(" ")` (spaces only). -/
def trim_right_spaces (s : String) : String :=
  String.mk ((s.data.reverse.dropWhile (fun c => c = ' ')).reverse)

/-- `_normalize_gs1_date(expiry)`: keep digit characters, keep the last 8
when 8 or more remain, then drop the leading 2 when exactly 8 remain.
Python's `str.isdigit` is modelled as the ASCII digit test (the expiry
data of this repository is ASCII). -/
def normalize_gs1_date (expiry : String) : String :=
  let digits := expiry.data.filter Char.isDigit
  let digits := if digits.length ≥ 8 then digits.drop (digits.length - 8) else digits
  let digits := if digits.length = 8 then digits.drop 2 else digits
  String.mk digits

/-- `udi_string(di, exp_yymmdd, lot)` from src/utils/pd41.py.  For string
arguments Python's `(x or "").strip()` equals `x.strip()`, embedded as
`pyStrip`. -/
def udi_string (di exp_yymmdd lot : String) : String :=
  "(01)" ++ pyStrip di ++ "(17)" ++ normalize_gs1_date exp_yymmdd ++ "(10)" ++ pyStrip lot

/-- `edge_suffix_for(code_prefix, drad2)` from src/utils/pd41.py. -/
def edge_suffix_for (codePfx : String) (drad2 : Option String) : String :=
  if codePfx.startsWith "7M" then
    match drad2.getD "" with
    | "0.75" => " T1"
    | "1.50" => " T2"
    | _ => ""
  else if codePfx.startsWith "7T" then
    match drad2.getD "" with
    | "0.50" => " T1"
    | "1.00" => " T2"
    | "1.50" => " T3"
    | _ => ""
  else ""

/-- `is_blank_or_zero(s)` from src/utils/pd41.py. -/
def is_blank_or_zero (s : String) : Bool :=
  let t := pyStrip s
  if t = "" then true
  else
    match parseFloatStr t with
    | some q => q = 0
    | _ => false

/-- The local closure `apt(code3, apt)` of `ScleralLabelTemplate.compute_fields`. -/
def sclApt (code3 a : String) : String :=
  if code3 = "7MS" then
    match a with
    | "N" => ""
    | "W" => "Wide "
    | "X" => "Extra Wide "
    | _ => ""
  else ""

/-- The local closure `edge(code3, e)` of `ScleralLabelTemplate.compute_fields`. -/
def sclEdge (code3 e : String) : String :=
  if code3 = "7MS" then
    match e with
    | "N" => ""
    | "s" => "s1"
    | "S" => "s2"
    | "f" => "f1"
    | "F" => "f2"
    | _ => ""
  else ""

/-- `ScleralLabelTemplate.compute_fields(v)` from src/utils/pd41.py. -/
def compute_fields (v : List (String × PyVal)) : List (String × PyVal) :=
  let SUBNAAM := pyStr (pyDictGetD v "SUBNAAM" (.str ""))
  let CODER := pyStr (pyDictGetD v "CODER" (.str ""))
  let CODEL := pyStr (pyDictGetD v "CODEL" (.str ""))
  let SCLAPTR := pyStr (pyDictGetD v "SCLAPTR" (.str ""))
  let SCLAPTL := pyStr (pyDictGetD v "SCLAPTL" (.str ""))
  let SCLEDGR := pyStr (pyDictGetD v "SCLEDGR" (.str ""))
  let SCLEDGL := pyStr (pyDictGetD v "SCLEDGL" (.str ""))
  let DRAD2R := pyStr (pyDictGetD v "DRAD2R" (.str ""))
  let DRAD2L := pyStr (pyDictGetD v "DRAD2L" (.str ""))
  let CYLR := pyStr (pyDictGetD v "CYLR" (.str " "))
  let CYLL := pyStr (pyDictGetD v "CYLL" (.str " "))
  let XASR := pyStr (pyDictGetD v "XASR" (.str ""))
  let XASL := pyStr (pyDictGetD v "XASL" (.str ""))
  let BONNR := pyStr (pyDictGetD v "BONNR" (.str ""))
  let DI := pyStr (pyDictGetD v "DI" (.str ""))
  let DATUM := pyStr (pyDictGetD v "DATUM" (.str ""))
  let UDI := pyStr (pyDictGetD v "UDI" (.str ""))
  let SUBNAAM_trim := trim_right_spaces SUBNAAM
  let SUBNAAMR := if left CODER 3 = "7MS" then sclApt "7MS" SCLAPTR ++ sclEdge "7MS" SCLEDGR else SUBNAAM_trim
  let SUBNAAML := if left CODEL 3 = "7MS" then sclApt "7MS" SCLAPTL ++ sclEdge "7MS" SCLEDGL else SUBNAAM_trim
  let SUBNAAMR := if left CODER 2 = "7M" ∨ left CODER 2 = "7T" then SUBNAAM_trim ++ edge_suffix_for (left CODER 2) (some DRAD2R) else SUBNAAMR
  let SUBNAAML := if left CODEL 2 = "7M" ∨ left CODEL 2 = "7T" then SUBNAAM_trim ++ edge_suffix_for (left CODEL 2) (some DRAD2L) else SUBNAAML
  let CYLASR := if right CYLR 1 = " " then "" else "/" ++ CYLR ++ "x" ++ XASR
  let CYLASL := if right CYLL 1 = " " then "" else "/" ++ CYLL ++ "x" ++ XASL
  let show_right := ¬ is_blank_or_zero CODER
  let show_left := ¬ is_blank_or_zero CODEL
  let UDI :=
    if pyStrip UDI = "" ∧ (pyStrip DI ≠ "" ∨ pyStrip DATUM ≠ "" ∨ pyStrip BONNR ≠ "") then
      udi_string DI DATUM BONNR
    else UDI
  let out := v
  let out := pyDictSet out "SUBNAAMR" (.str SUBNAAMR)
  let out := pyDictSet out "SUBNAAML" (.str SUBNAAML)
  let out := pyDictSet out "CYLASR" (.str CYLASR)
  let out := pyDictSet out "CYLASL" (.str CYLASL)
  let out := pyDictSet out "_show_right" (.str (if show_right then "1" else "0"))
  let out := pyDictSet out "_show_left" (.str (if show_left then "1" else "0"))
  let out := pyDictSet out "UDI" (.str UDI)
  out.map (fun p => (p.1, if p.2.isNone then .str "" else p.2))

/-! ## Python `str.format` (the subset exercised by the templates)

`evalField` evaluates one replacement field against a keyword value map
(the renderer always calls `template.format(**values)` with keyword
arguments only, never positional ones).  The modelled mini-language
covers: keyword lookup, auto-numbered/`{0}`-style positional fields
(always an IndexError here, since no positional arguments are supplied),
`!s`/`!r`/`!a` conversions, and width-only format specs for strings;
attribute/item accessors and other spec forms map to the error class
CPython raises for string values. -/

/-- Lookup in a string-valued map (first match, like a Python dict). -/
def lookupStr (vals : List (String × String)) (k : String) : Option String :=
  (vals.find? (fun p => p.1 == k)).map (fun p => p.2)

/-- Apply a format spec to an (already converted) string value. -/
def applySpec (v : String) (spec : List Char) : Except PyErr String :=
  if spec = [] then .ok v
  else if spec.all Char.isDigit then
    let w := digitsVal spec
    .ok (v ++ String.mk (List.replicate (w - v.length) ' '))
  else .error (.valueError "Invalid format specifier")

/-- Evaluate one replacement field (the text between braces). -/
def evalField (vals : List (String × String)) (fld : List Char) : Except PyErr String :=
  let nameConv := fld.takeWhile (fun c => c ≠ ':')
  let spec := (fld.dropWhile (fun c => c ≠ ':')).drop 1
  let fieldName := nameConv.takeWhile (fun c => c ≠ '!')
  let conv := (nameConv.dropWhile (fun c => c ≠ '!')).drop 1
  let argName := fieldName.takeWhile (fun c => c ≠ '.' ∧ c ≠ '[')
  let accessor := fieldName.dropWhile (fun c => c ≠ '.' ∧ c ≠ '[')
  if argName = [] ∨ argName.all Char.isDigit then
    .error (.indexError "Replacement index out of range")
  else
    match lookupStr vals (String.mk argName) with
    | Option.none => .error (.keyError (String.mk argName))
    | some v =>
      if accessor ≠ [] then
        .error (.attributeError "str object has no attribute")
      else
        match conv with
        | [] => applySpec v spec
        | ['s'] => applySpec v spec
        | ['r'] => applySpec ("'" ++ v ++ "'") spec
        | ['a'] => applySpec ("'" ++ v ++ "'") spec
        | _ => .error (.valueError "Unknown conversion specifier")

/-- Scanner for `str.format`: doubled braces are literals, a lone
closing brace or an unterminated field is a ValueError, each replacement
field is evaluated by `evalField`.  The first argument is the scanning
mode: `Option.none` while copying literal text, `some acc` while inside
a replacement field with `acc` holding the field's characters reversed
(braces nested inside a format spec are not modelled; the repository's
templates do not use them). -/
def scanFmt (vals : List (String × String)) :
    Option (List Char) → List Char → Except PyErr (List Char)
  | Option.none, [] => .ok []
  | Option.none, ['{'] => .error (.valueError "Single opening brace encountered in format string")
  | Option.none, ['}'] => .error (.valueError "Single closing brace encountered in format string")
  | Option.none, '{' :: '{' :: rest => (scanFmt vals Option.none rest).map (fun r => '{' :: r)
  | Option.none, '}' :: '}' :: rest => (scanFmt vals Option.none rest).map (fun r => '}' :: r)
  | Option.none, '}' :: _ :: _ => .error (.valueError "Single closing brace encountered in format string")
  | Option.none, '{' :: c :: rest => scanFmt vals (some []) (c :: rest)
  | Option.none, c :: rest => (scanFmt vals Option.none rest).map (fun r => c :: r)
  | some _, [] => .error (.valueError "expected closing brace before end of string")
  | some acc, '}' :: rest =>
    match evalField vals acc.reverse with
    | .error e => .error e
    | .ok repl => (scanFmt vals Option.none rest).map (fun r => repl.data ++ r)
  | some acc, c :: rest => scanFmt vals (some (c :: acc)) rest

/-- Python `t.format(**vals)` over the modelled subset. -/
def pyFormat (t : String) (vals : List (String × String)) : Except PyErr String :=
  (scanFmt vals Option.none t.data).map String.mk

/-! ## src/python/printer_templates/xml_loader.py -/

/-- The protocol commands that `JsonCommandEmitter.emit` receives during
a template render, with the `args` each call site supplies. -/
inductive Cmd where
  | setup (name : String)
  | setFont (name : String) (size : Rat)
  | setAlignment (align : String)
  | setDirection (direction : String)
  | moveTo (x y : Rat)
  | drawText (text : String)
  | drawBarcode (value btype : String) (width ratioArg height bsize : Int)
  | comment (text : String)
  | printFeed
deriving DecidableEq, Repr

/-- The `"name"` entry the emitter stores for a command. -/
def Cmd.cmdName : Cmd → String
  | .setup _ => "Setup"
  | .setFont _ _ => "SetFont"
  | .setAlignment _ => "SetAlignment"
  | .setDirection _ => "SetDirection"
  | .moveTo _ _ => "MoveTo"
  | .drawText _ => "DrawText"
  | .drawBarcode _ _ _ _ _ _ => "DrawBarcode"
  | .comment _ => "Comment"
  | .printFeed => "PrintFeed"

/-- `_RenderState` from xml_loader.py. -/
structure RenderState where
  font : Option String := Option.none
  size : Option Rat := Option.none
  align : Option String := Option.none
  direction : Option String := Option.none
deriving DecidableEq, Repr

/-- `_to_float(value, default)`: `float(value)` with TypeError/ValueError
degrading to the default (a `None` attribute is a TypeError). -/
def to_float (value : Option String) (dflt : Rat) : Rat :=
  match value with
  | Option.none => dflt
  | some s => (parseFloatStr s).getD dflt

/-- `_normalise_text(text)`: `None` becomes `""`, whitespace runs are
collapsed to single spaces (`" ".join(text.split())`). -/
def normalise_text (text : Option String) : String :=
  String.intercalate " "
    (((text.getD "").split Char.isWhitespace).filter (fun w => w ≠ ""))

/-- Python `int(q)` on a float: truncation toward zero. -/
def pyInt (q : Rat) : Int := Int.tdiv q.num (Int.ofNat q.den)

/-- Attributes of a `<Field .../>` element (each `elem.get(...)` result). -/
structure FieldAttrs where
  font : Option String := Option.none
  size : Option String := Option.none
  align : Option String := Option.none
  dir : Option String := Option.none
  x : Option String := Option.none
  y : Option String := Option.none
  text : Option String := Option.none
  fname : Option String := Option.none
  pfx : Option String := Option.none
  sfx : Option String := Option.none
deriving DecidableEq, Repr

/-- Attributes of a `<Barcode .../>` element. -/
structure BarcodeAttrs where
  bname : Option String := Option.none
  value : Option String := Option.none
  btype : Option String := Option.none
  width : Option String := Option.none
  ratioAttr : Option String := Option.none
  height : Option String := Option.none
  bsize : Option String := Option.none
  align : Option String := Option.none
  dir : Option String := Option.none
  x : Option String := Option.none
  y : Option String := Option.none
deriving DecidableEq, Repr

/-- A child of a `<Group>`: an XML comment (non-string tag), a field, a
barcode, or an element with any other tag (skipped by the renderer). -/
inductive XmlElem where
  | xcomment (text : Option String)
  | field (f : FieldAttrs)
  | barcode (b : BarcodeAttrs)
  | other
deriving DecidableEq, Repr

/-- A `<Group>` element: the two accepted offset attribute spellings plus
the child elements in document order. -/
structure LayoutGroup where
  offsetX : Option String := Option.none
  offsetx : Option String := Option.none
  offsetY : Option String := Option.none
  offsety : Option String := Option.none
  elems : List XmlElem := []
deriving DecidableEq, Repr

/-- A parsed `XmlCommandTemplate`: root attributes, Meta-derived data and
the groups, as stored by `XmlCommandTemplate.__init__`. -/
structure XmlTemplate where
  label_name : String := ""
  width : Rat := 0
  height : Rat := 0
  units : String := "mm"
  base_font : String := "Swiss 721 Bold BT"
  dpi : Option Rat := Option.none
  description : String := ""
  groups : List LayoutGroup := []
deriving DecidableEq, Repr

/-- `elem.get("font") or self.base_font` (line 111): the resolved font of
a field, before state diffing. -/
def field_font (tmpl : XmlTemplate) (f : FieldAttrs) : String :=
  let a := f.font.getD ""
  if a = "" then tmpl.base_font else a

/-- The `size` resolution of `_render_field` (lines 112-117): an explicit
non-blank attribute is parsed with the prior size as parse-failure
default, otherwise the prior size is inherited. -/
def field_size (s : RenderState) (f : FieldAttrs) : Option Rat :=
  match f.size with
  | some sa => if pyStrip sa ≠ "" then some (to_float (some sa) (s.size.getD 0)) else s.size
  | Option.none => s.size

/-- The font/size block of `_update_state` (lines 172-180). -/
def fontStep (base : String) (s : RenderState) (font : Option String)
    (size : Option Rat) : RenderState × List Cmd :=
  if (font.getD "") ≠ "" ∨ size.isSome then
    let chosen_font :=
      if (font.getD "") ≠ "" then font.getD ""
      else if (s.font.getD "") ≠ "" then s.font.getD ""
      else base
    let chosen_size : Rat :=
      match size with
      | some q => q
      | Option.none => s.size.getD 0
    if s.font ≠ some chosen_font ∨ s.size ≠ some chosen_size then
      ({ s with font := some chosen_font, size := some chosen_size },
        [.setFont chosen_font chosen_size])
    else (s, [])
  else (s, [])

/-- The alignment block of `_update_state` (lines 181-183). -/
def alignStep (s : RenderState) (align : Option String) : RenderState × List Cmd :=
  match align with
  | some a => if s.align ≠ some a then ({ s with align := some a }, [.setAlignment a]) else (s, [])
  | Option.none => (s, [])

/-- The direction block of `_update_state` (lines 184-186). -/
def dirStep (s : RenderState) (direction : Option String) : RenderState × List Cmd :=
  match direction with
  | some d =>
    if s.direction ≠ some d then ({ s with direction := some d }, [.setDirection d])
    else (s, [])
  | Option.none => (s, [])

/-- `XmlCommandTemplate._update_state`: the three state-diff blocks in
source order.  (`chosen_size = state.size or 0.0` of line 176 collapses
to `state.size.getD 0`, since that line only runs when `size` and
`state.size` are both `None`.) -/
def update_state (base : String) (s : RenderState) (font : Option String)
    (size : Option Rat) (align direction : Option String) : RenderState × List Cmd :=
  let (s1, c1) := fontStep base s font size
  let (s2, c2) := alignStep s1 align
  let (s3, c3) := dirStep s2 direction
  (s3, c1 ++ c2 ++ c3)

/-- `XmlCommandTemplate._format`: attempt `str.format` only when both
braces occur, returning the literal text on KeyError/ValueError. -/
def format_text (t : String) (vals : List (String × String)) : Except PyErr String :=
  if '{' ∈ t.data ∧ '}' ∈ t.data then
    match pyFormat t vals with
    | .ok s => .ok s
    | .error (.keyError _) => .ok t
    | .error (.valueError _) => .ok t
    | .error e => .error e
  else .ok t

/-- The text composed by `_resolve_text` before formatting: the non-empty
`text` attribute, else `prefix + lookup(name) + suffix`. -/
def composed_text (f : FieldAttrs) (vals : List (String × String)) : String :=
  match f.text with
  | some t => if t ≠ "" then t else byName f vals
  | Option.none => byName f vals
where
  byName (f : FieldAttrs) (vals : List (String × String)) : String :=
    let nm := f.fname.getD ""
    let value := (lookupStr vals nm).getD ""
    f.pfx.getD "" ++ value ++ f.sfx.getD ""

/-- `XmlCommandTemplate._resolve_text`. -/
def resolve_text (f : FieldAttrs) (vals : List (String × String)) : Except PyErr String :=
  format_text (composed_text f vals) vals

/-- `XmlCommandTemplate._render_field`. -/
def render_field (tmpl : XmlTemplate) (vals : List (String × String))
    (s : RenderState) (f : FieldAttrs) (offset_x offset_y : Rat) :
    Except PyErr (RenderState × List Cmd) :=
  let font := field_font tmpl f
  let size := field_size s f
  let (s', cmds) := update_state tmpl.base_font s (some font) size f.align f.dir
  let x := qAdd offset_x (to_float f.x 0)
  let y := qAdd offset_y (to_float f.y 0)
  match resolve_text f vals with
  | .error e => .error e
  | .ok text => .ok (s', cmds ++ [.moveTo x y, .drawText text])

/-- `XmlCommandTemplate._render_barcode`. -/
def render_barcode (tmpl : XmlTemplate) (vals : List (String × String))
    (s : RenderState) (b : BarcodeAttrs) (offset_x offset_y : Rat) :
    RenderState × List Cmd :=
  let (s', cmds) := update_state tmpl.base_font s Option.none Option.none b.align b.dir
  let x := qAdd offset_x (to_float b.x 0)
  let y := qAdd offset_y (to_float b.y 0)
  let raw_value := b.value.getD ""
  let value := (lookupStr vals (b.bname.getD "")).getD raw_value
  (s', cmds ++ [.moveTo x y,
    .drawBarcode value (b.btype.getD "DATAMATRIX")
      (pyInt (to_float b.width 1)) (pyInt (to_float b.ratioAttr 1))
      (pyInt (to_float b.height 1)) (pyInt (to_float b.bsize 100))])

/-- One loop iteration of `render` over a group child. -/
def renderElem (tmpl : XmlTemplate) (vals : List (String × String))
    (s : RenderState) (offset_x offset_y : Rat) :
    XmlElem → Except PyErr (RenderState × List Cmd)
  | .xcomment t =>
    let c := normalise_text t
    .ok (s, if c ≠ "" then [.comment c] else [])
  | .field f => render_field tmpl vals s f offset_x offset_y
  | .barcode b => .ok (render_barcode tmpl vals s b offset_x offset_y)
  | .other => .ok (s, [])

/-- The inner loop of `render` over a group's children. -/
def renderElems (tmpl : XmlTemplate) (vals : List (String × String))
    (offset_x offset_y : Rat) :
    RenderState → List XmlElem → Except PyErr (RenderState × List Cmd)
  | s, [] => .ok (s, [])
  | s, e :: rest =>
    match renderElem tmpl vals s offset_x offset_y e with
    | .error err => .error err
    | .ok (s1, c1) =>
      match renderElems tmpl vals offset_x offset_y s1 rest with
      | .error err => .error err
      | .ok (s2, c2) => .ok (s2, c1 ++ c2)

/-- `group.get("offsetX") or group.get("offsetx")` (and the Y analogue). -/
def groupOffsetAttr (a b : Option String) : Option String :=
  match a with
  | some s => if s = "" then b else some s
  | Option.none => b

/-- The outer loop of `render` over the template's groups. -/
def renderGroups (tmpl : XmlTemplate) (vals : List (String × String)) :
    RenderState → List LayoutGroup → Except PyErr (RenderState × List Cmd)
  | s, [] => .ok (s, [])
  | s, g :: rest =>
    let ox := to_float (groupOffsetAttr g.offsetX g.offsetx) 0
    let oy := to_float (groupOffsetAttr g.offsetY g.offsety) 0
    match renderElems tmpl vals ox oy s g.elems with
    | .error err => .error err
    | .ok (s1, c1) =>
      match renderGroups tmpl vals s1 rest with
      | .error err => .error err
      | .ok (s2, c2) => .ok (s2, c1 ++ c2)

/-! ## src/python/printer_protocol.py — emitter, driver base, interpreter -/

/-- The initial `_layout` dict of `JsonCommandEmitter.__init__`. -/
def initLayout : List (String × PyVal) :=
  [("units", .str "mm"), ("origin", .str "bottom-left"), ("y_direction", .str "up")]

/-- `JsonCommandEmitter.set_layout`: overwrite the layout dict with
`float(width)`/`float(height)` and the string fields, adding
`float(dpi)` only when `dpi` is not `None`.  A float-coercion failure
propagates (the model returns the error with no partial update; the
claims read only the success case and the error). -/
def set_layout (layout : List (String × PyVal)) (width height : PyVal)
    (units origin y_direction : String) (dpi : PyVal) :
    Except PyErr (List (String × PyVal)) :=
  match pyFloat width with
  | .error e => .error e
  | .ok w =>
    match pyFloat height with
    | .error e => .error e
    | .ok h =>
      let l := pyDictSet layout "width" (.num w)
      let l := pyDictSet l "height" (.num h)
      let l := pyDictSet l "units" (.str units)
      let l := pyDictSet l "origin" (.str origin)
      let l := pyDictSet l "y_direction" (.str y_direction)
      if dpi.isNone then .ok l
      else
        match pyFloat dpi with
        | .error e => .error e
        | .ok q => .ok (pyDictSet l "dpi" (.num q))

/-- The payload assembled by `XmlCommandTemplate.render` (the command
list plus the envelope-level layout document). -/
structure RenderResult where
  commands : List Cmd
  layout : List (String × PyVal)
  description : String

/-- `XmlCommandTemplate.render(values)`:
open the envelope, `set_layout` from the template geometry, emit
`Setup`, render every group, emit `PrintFeed`.  The template's
width/height are floats, so the `set_layout` coercions always succeed;
the model keeps the initial layout in the (unreachable) failure case. -/
def render (tmpl : XmlTemplate) (values : List (String × PyVal)) :
    Except PyErr RenderResult :=
  let value_map := values.map (fun p =>
    (p.1, if p.2.isNone then "" else pyStr p.2))
  let layout :=
    match set_layout initLayout (.num tmpl.width) (.num tmpl.height)
        tmpl.units "bottom-left" "up"
        (match tmpl.dpi with | some q => .num q | Option.none => .none) with
    | .ok l => l
    | .error _ => initLayout
  match renderGroups tmpl value_map {} tmpl.groups with
  | .error e => .error e
  | .ok (_, body) =>
    .ok { commands := .setup tmpl.label_name :: (body ++ [.printFeed]),
          layout := layout,
          description := tmpl.description }

/-- The mutable attribute record of the `PrinterDriver` base class
(`__init__` defaults: canonical bottom-left/Y-up space, 203 dpi). -/
structure DriverState where
  origin : String := "bottom-left"
  y_direction : String := "up"
  label_width : Rat := 0
  label_height : Rat := 0
  units : String := "mm"
  dpi : Rat := 203
deriving DecidableEq, Repr

/-- `PrinterDriver.set_label_context(height, units, dpi)`. -/
def set_label_context (d : DriverState) (height : Rat) (units : String)
    (dpi : Rat) : DriverState :=
  { d with label_height := height, units := units, dpi := dpi }

/-- `PrinterDriver.configure_layout(...)`: store width/origin/direction
and forward to `set_label_context` with the driver's own dpi. -/
def configure_layout (d : DriverState) (width height : Rat)
    (units origin y_direction : String) : DriverState :=
  let d := { d with label_width := width, origin := origin, y_direction := y_direction }
  set_label_context d height units d.dpi

/-- `PrinterDriver.to_device_coords(x, y)` of the base class: identity
(canonical bottom-left, Y-up space). -/
def base_to_device_coords (_d : DriverState) (x y : Rat) : Rat × Rat := (x, y)

/-- A record of one dispatched driver call: the bound method's name and
the keyword arguments passed to it (`handler(**dict(args))`). -/
structure DriverCall where
  method : String
  kwargs : List (String × PyVal)

/-- The `_dispatch` table of `JsonCommandInterpreter.__init__`, as a map
from command name to the driver method it binds. -/
def dispatch_method (name : String) : Option String :=
  match name with
  | "Setup" => some "setup"
  | "SetFont" => some "set_font"
  | "SetAlignment" => some "set_alignment"
  | "SetDirection" => some "set_direction"
  | "MoveTo" => some "move_to"
  | "DrawText" => some "draw_text"
  | "DrawBarcode" => some "draw_barcode"
  | "Comment" => some "comment"
  | "PrintFeed" => some "print_feed"
  | _ => Option.none

/-- One iteration of `JsonCommandInterpreter._execute`: validate the
entry shape, then look up the handler. -/
def executeEntry (entry : PyVal) : Except PyErr DriverCall :=
  match entry with
  | .dict d =>
    match pyDictGet d "name" with
    | some (.str name) =>
      match pyDictGetD d "args" (.dict []) with
      | .dict argEntries =>
        match dispatch_method name with
        | some m => .ok ⟨m, argEntries⟩
        | Option.none => .error (.keyError ("Unsupported command: " ++ name))
      | _ => .error (.typeError "command args must be a mapping")
    | _ => .error (.valueError "command name must be a string")
  | _ => .error (.typeError "command entries must be mappings")

/-- `JsonCommandInterpreter._execute`: dispatch entries in order,
aborting at the first malformed or unsupported entry.  The driver calls
made before the failure are kept (partial execution, no rollback). -/
def executeCmds : List PyVal → List DriverCall × Option PyErr
  | [] => ([], Option.none)
  | entry :: rest =>
    match executeEntry entry with
    | .error e => ([], some e)
    | .ok call => (call :: (executeCmds rest).1, (executeCmds rest).2)

/-- `JsonCommandInterpreter._configure_driver(data)`. -/
def configure_driver (d : DriverState) (data : List (String × PyVal)) :
    Except PyErr DriverState :=
  let units := pyStr (pyDictGetD data "units" (.str "mm"))
  let origin := pyStr (pyDictGetD data "origin" (.str "bottom-left"))
  let ydir := pyStr (pyDictGetD data "y_direction" (.str "up"))
  match pyFloat (pyOr (pyDictGetD data "width" (.num 0)) (.num 0)) with
  | .error e => .error e
  | .ok width =>
    match pyFloat (pyOr (pyDictGetD data "height" (.num 0)) (.num 0)) with
    | .error e => .error e
    | .ok height =>
      let d1 := configure_layout d width height units origin ydir
      let step2 : Except PyErr DriverState :=
        match pyDictGet data "dpi" with
        | Option.none => .ok d1
        | some dpiVal =>
          if dpiVal.isNone then .ok d1
          else
            match pyFloat dpiVal with
            | .ok q => .ok { d1 with dpi := q }
            | .error _ => .error (.valueError "dpi must be numeric")
      match step2 with
      | .error e => .error e
      | .ok d2 => .ok (set_label_context d2 height units d2.dpi)

/-- `JsonCommandInterpreter.run` on a structured (dict) payload against
a base driver: configure the driver, then execute the command list.  The
result carries the driver state after configuration, the dispatched
calls in order, and the error that aborted the run, if any. -/
def interpreterRun (d : DriverState) (data : List (String × PyVal)) :
    DriverState × List DriverCall × Option PyErr :=
  match configure_driver d data with
  | .error e => (d, [], some e)
  | .ok d' =>
    match pyDictGetD data "commands" (.list []) with
    | .list cs => (d', executeCmds cs)
    | .dict entries => (d', executeCmds (entries.map (fun p => .str p.1)))
    | .str s => (d', executeCmds (s.data.map (fun c => .str (String.mk [c]))))
    | _ => (d', [], some (.typeError "commands collection must be iterable"))

/-! ## src/python/drivers/gdi_driver_stub.py -/

/-- The attribute record of `GdiDriverStub.__init__`: top-left, Y-down
space, 96 dpi, 60 units label height (other attributes inherited from
the base). -/
structure GdiDriverStub where
  origin : String := "top-left"
  y_direction : String := "down"
  label_width : Rat := 0
  label_height : Rat := 60
  units : String := "mm"
  dpi : Rat := 96
deriving DecidableEq, Repr

/-- `GdiDriverStub.to_device_coords(x, y)`: identity when the label
height is falsy, otherwise flip Y against the label height. -/
def GdiDriverStub.to_device_coords (d : GdiDriverStub) (x y : Rat) : Rat × Rat :=
  if d.label_height = 0 then (x, y) else (x, qSub d.label_height y)

/-! ## Theorems -/

theorem qAdd_eq (a b : Rat) : qAdd a b = a + b := by
  rw [qAdd, Rat.mkRat_eq_div]
  have ha : ((a.den : ℚ)) ≠ 0 := by exact_mod_cast a.den_nz
  have hb : ((b.den : ℚ)) ≠ 0 := by exact_mod_cast b.den_nz
  conv_rhs => rw [← Rat.num_div_den a, ← Rat.num_div_den b]
  rw [div_add_div _ _ ha hb]
  push_cast
  ring_nf

theorem qSub_eq (a b : Rat) : qSub a b = a - b := by
  rw [qSub, Rat.mkRat_eq_div]
  have ha : ((a.den : ℚ)) ≠ 0 := by exact_mod_cast a.den_nz
  have hb : ((b.den : ℚ)) ≠ 0 := by exact_mod_cast b.den_nz
  conv_rhs => rw [← Rat.num_div_den a, ← Rat.num_div_den b]
  rw [div_sub_div _ _ ha hb]
  push_cast
  ring_nf


theorem pyDictFind_map_replace (d : List (String × PyVal)) (k k' : String) (val : PyVal) :
    (d.map (fun p => if p.1 == k' then (k', val) else p)).find? (fun p => p.1 == k) =
      if k = k' then (d.find? (fun p => p.1 == k')).map (fun _ => (k', val))
      else d.find? (fun p => p.1 == k) := by
  induction d with
  | nil => simp
  | cons p rest ih =>
    rw [List.map_cons]
    by_cases hp : p.1 = k'
    · rw [if_pos (by simpa using hp)]
      by_cases hk : k = k'
      · subst hk
        rw [List.find?_cons_of_pos _ (by simp), if_pos rfl,
          List.find?_cons_of_pos _ (by simpa using hp)]
        simp
      · rw [List.find?_cons_of_neg _ (by simp; exact fun h => hk h.symm), if_neg hk,
          List.find?_cons_of_neg _ (by simp [hp]; exact fun h => hk h.symm)]
        rw [ih, if_neg hk]
    · rw [if_neg (by simpa using hp)]
      by_cases hk : k = k'
      · subst hk
        rw [List.find?_cons_of_neg _ (by simpa using fun h => hp h), if_pos rfl,
          List.find?_cons_of_neg _ (by simpa using fun h => hp h)]
        rw [ih, if_pos rfl]
      · by_cases hpk : p.1 = k
        · rw [List.find?_cons_of_pos _ (by simpa using hpk), if_neg hk,
            List.find?_cons_of_pos _ (by simpa using hpk)]
        · rw [List.find?_cons_of_neg _ (by simpa using hpk), if_neg hk,
            List.find?_cons_of_neg _ (by simpa using hpk)]
          rw [ih, if_neg hk]

theorem pyDictGet_set (d : List (String × PyVal)) (k k' : String) (val : PyVal) :
    pyDictGet (pyDictSet d k' val) k = if k = k' then some val else pyDictGet d k := by
  unfold pyDictGet pyDictSet
  by_cases hs : (d.find? (fun p => p.1 == k')).isSome = true
  · rw [if_pos hs, pyDictFind_map_replace]
    by_cases hk : k = k'
    · obtain ⟨pp, hpp⟩ := Option.isSome_iff_exists.mp hs
      simp [hk, hpp]
    · simp [hk]
  · rw [if_neg hs, List.find?_append]
    by_cases hk : k = k'
    · subst hk
      have hnone : d.find? (fun p => p.1 == k) = Option.none := by
        cases h : d.find? (fun p => p.1 == k) <;> simp [h] at hs ⊢
      rw [hnone, List.find?_cons_of_pos _ (by simp)]
      simp
    · have hsingle : ([(k', val)].find? (fun p => p.1 == k)) = Option.none := by
        rw [List.find?_cons_of_neg _ (by simp; exact fun h => hk h.symm)]
        rfl
      rw [hsingle, if_neg hk]
      cases h : d.find? (fun p => p.1 == k) <;> rfl

theorem pyDictGet_mapVal (d : List (String × PyVal)) (f : PyVal → PyVal) (k : String) :
    pyDictGet (d.map (fun p => (p.1, f p.2))) k = (pyDictGet d k).map f := by
  induction d with
  | nil => simp [pyDictGet]
  | cons p rest ih =>
    by_cases hp : p.1 = k
    · unfold pyDictGet
      rw [List.map_cons, List.find?_cons_of_pos _ (by simpa using hp),
        List.find?_cons_of_pos _ (by simpa using hp)]
      rfl
    · unfold pyDictGet
      rw [List.map_cons, List.find?_cons_of_neg _ (by simpa using hp),
        List.find?_cons_of_neg _ (by simpa using hp)]
      exact ih

/-- C10: for all strings `di`, `exp`, `lot`, `udi_string di exp lot` is the
concatenation `"(01)" ++ strip di ++ "(17)" ++ d ++ "(10)" ++ strip lot`,
where `d` keeps only the digit characters of `exp`, truncates to the last
8 when 8 or more remain, then drops the first 2 when exactly 8 remain;
`d` is all digits, and an 8-digit `YYYYMMDD` expiry yields the 6-digit
`YYMMDD` form. -/
theorem c10_udi_string (di exp lot : String) :
    udi_string di exp lot =
      "(01)" ++ pyStrip di ++ "(17)" ++ normalize_gs1_date exp ++ "(10)" ++ pyStrip lot
    ∧ (normalize_gs1_date exp).data =
        (if 8 ≤ (exp.data.filter Char.isDigit).length then
          ((exp.data.filter Char.isDigit).drop ((exp.data.filter Char.isDigit).length - 8)).drop 2
         else exp.data.filter Char.isDigit)
    ∧ (∀ c ∈ (normalize_gs1_date exp).data, c.isDigit)
    ∧ (exp.data.all Char.isDigit → exp.length = 8 →
        normalize_gs1_date exp = String.mk (exp.data.drop 2)) := by
  refine ⟨rfl, ?_, ?_, ?_⟩
  · simp only [normalize_gs1_date]
    by_cases h8 : 8 ≤ (exp.data.filter Char.isDigit).length
    · rw [if_pos h8]
      have hlen : ((exp.data.filter Char.isDigit).drop
          ((exp.data.filter Char.isDigit).length - 8)).length = 8 := by
        rw [List.length_drop]; omega
      rw [if_pos hlen, if_pos h8]
    · rw [if_neg h8, if_neg (by omega : ¬(exp.data.filter Char.isDigit).length = 8),
        if_neg h8]
  · intro c hc
    simp only [normalize_gs1_date] at hc
    split_ifs at hc with h1 h2 h3
    · exact (List.mem_filter.mp (List.mem_of_mem_drop (List.mem_of_mem_drop hc))).2
    · exact (List.mem_filter.mp (List.mem_of_mem_drop hc)).2
    · exact (List.mem_filter.mp (List.mem_of_mem_drop hc)).2
    · exact (List.mem_filter.mp hc).2
  · intro hall h8
    have hdata : exp.data.filter Char.isDigit = exp.data :=
      List.filter_eq_self.mpr (fun a ha => List.all_eq_true.mp hall a ha)
    have hlen : exp.data.length = 8 := h8
    simp only [normalize_gs1_date, hdata, hlen]
    simp [h8]

theorem c10_udi_string_witness :
    normalize_gs1_date "20261231" = String.mk ("20261231".data.drop 2) :=
  (c10_udi_string "x" "20261231" "y").2.2.2 (by decide) (by decide)

/-- C9: `compute_fields v` keeps every key of `v`; every key outside the
seven computed fields maps to its original value (with `None` replaced
by `""`); and no key outside `v` and the seven computed fields appears
in the result. -/
theorem pyDictGet_noneFix (d : List (String × PyVal)) (k : String) :
    pyDictGet (d.map (fun p => (p.1, if p.2.isNone then PyVal.str "" else p.2))) k =
      (pyDictGet d k).map (fun x => if x.isNone then PyVal.str "" else x) :=
  pyDictGet_mapVal d (fun x => if x.isNone then PyVal.str "" else x) k

theorem c9_compute_fields_frame (v : List (String × PyVal)) (k : String) :
    ((pyDictGet v k).isSome → (pyDictGet (compute_fields v) k).isSome)
  ∧ (k ∉ ["SUBNAAMR", "SUBNAAML", "CYLASR", "CYLASL", "_show_right", "_show_left", "UDI"] →
      pyDictGet (compute_fields v) k =
        (pyDictGet v k).map (fun x => if x.isNone then PyVal.str "" else x))
  ∧ ((pyDictGet (compute_fields v) k).isSome →
      (pyDictGet v k).isSome ∨
        k ∈ ["SUBNAAMR", "SUBNAAML", "CYLASR", "CYLASL", "_show_right", "_show_left", "UDI"]) := by
  have hframe : k ∉ ["SUBNAAMR", "SUBNAAML", "CYLASR", "CYLASL", "_show_right", "_show_left", "UDI"] →
      pyDictGet (compute_fields v) k =
        (pyDictGet v k).map (fun x => if x.isNone then PyVal.str "" else x) := by
    intro hk
    have h1 : ¬(k = "SUBNAAMR") := fun h => hk (by simp [h])
    have h2 : ¬(k = "SUBNAAML") := fun h => hk (by simp [h])
    have h3 : ¬(k = "CYLASR") := fun h => hk (by simp [h])
    have h4 : ¬(k = "CYLASL") := fun h => hk (by simp [h])
    have h5 : ¬(k = "_show_right") := fun h => hk (by simp [h])
    have h6 : ¬(k = "_show_left") := fun h => hk (by simp [h])
    have h7 : ¬(k = "UDI") := fun h => hk (by simp [h])
    simp only [compute_fields, pyDictGet_noneFix, pyDictGet_set,
      if_neg h1, if_neg h2, if_neg h3, if_neg h4, if_neg h5, if_neg h6, if_neg h7]
  refine ⟨?_, hframe, ?_⟩
  · intro hv
    by_cases hk : k ∈ ["SUBNAAMR", "SUBNAAML", "CYLASR", "CYLASL", "_show_right", "_show_left", "UDI"]
    · have hcases : k = "SUBNAAMR" ∨ k = "SUBNAAML" ∨ k = "CYLASR" ∨ k = "CYLASL" ∨
          k = "_show_right" ∨ k = "_show_left" ∨ k = "UDI" := by simpa using hk
      rcases hcases with rfl | rfl | rfl | rfl | rfl | rfl | rfl <;>
        simp [compute_fields, pyDictGet_noneFix, pyDictGet_set]
    · rw [hframe hk]
      cases h : pyDictGet v k with
      | none => rw [h] at hv; simp at hv
      | some x => simp
  · intro hout
    by_cases hk : k ∈ ["SUBNAAMR", "SUBNAAML", "CYLASR", "CYLASL", "_show_right", "_show_left", "UDI"]
    · exact Or.inr hk
    · refine Or.inl ?_
      rw [hframe hk] at hout
      cases h : pyDictGet v k with
      | none => rw [h] at hout; simp at hout
      | some x => simp

theorem c9_compute_fields_frame_witness :
    pyDictGet (compute_fields [("NAAM", PyVal.str "X"), ("ZZ", PyVal.none)]) "NAAM" =
      some (PyVal.str "X") := by
  have h := (c9_compute_fields_frame [("NAAM", PyVal.str "X"), ("ZZ", PyVal.none)] "NAAM").2.1
    (by decide)
  rw [h]
  rfl

/-- C5: a top-left/Y-down driver with nonzero label height H maps
(x, y) to (x, H - y); with label height zero it is the identity; and the
canonical-origin base driver transform is the identity. -/
theorem c5_to_device_coords (g : GdiDriverStub) (b : DriverState) (x y : Rat) :
    (g.label_height ≠ 0 → g.to_device_coords x y = (x, g.label_height - y))
  ∧ (g.label_height = 0 → g.to_device_coords x y = (x, y))
  ∧ base_to_device_coords b x y = (x, y) := by
  refine ⟨?_, ?_, rfl⟩
  · intro h
    simp [GdiDriverStub.to_device_coords, h, qSub_eq]
  · intro h
    simp [GdiDriverStub.to_device_coords, h]

theorem c5_to_device_coords_witness :
    GdiDriverStub.to_device_coords {} 5 10 = (5, (60 : Rat) - 10) ∧
      base_to_device_coords {} 5 10 = (5, 10) :=
  ⟨(c5_to_device_coords {} {} 5 10).1 (by norm_num), (c5_to_device_coords {} {} 5 10).2.2⟩

/-- C4: an entry whose name is in the fixed command set is dispatched to
the driver method mapped to that name with exactly the entry's args as
keyword arguments; an entry whose name is outside the set aborts the run
with a KeyError naming the unsupported command. -/
theorem c4_dispatch (entry : List (String × PyVal)) (name : String)
    (argEntries : List (String × PyVal)) (rest : List PyVal) :
    pyDictGet entry "name" = some (.str name) →
    pyDictGetD entry "args" (.dict []) = .dict argEntries →
    (∀ m, dispatch_method name = some m →
      executeCmds (.dict entry :: rest) =
        (⟨m, argEntries⟩ :: (executeCmds rest).1, (executeCmds rest).2))
    ∧ (dispatch_method name = Option.none →
      executeCmds (.dict entry :: rest) =
        ([], some (.keyError ("Unsupported command: " ++ name)))) := by
  intro hname hargs
  constructor
  · intro m hm
    simp only [executeCmds, executeEntry, hname, hargs, hm]
  · intro hm
    simp only [executeCmds, executeEntry, hname, hargs, hm]

theorem c4_dispatch_witness :
    executeCmds [PyVal.dict [("name", .str "MoveTo"),
        ("args", .dict [("x", .num 10), ("y", .num 20)])]] =
      ([⟨"move_to", [("x", .num 10), ("y", .num 20)]⟩], Option.none)
    ∧ executeCmds [PyVal.dict [("name", .str "Foo"), ("args", .dict [])]] =
      ([], some (.keyError "Unsupported command: Foo")) := by
  constructor
  · exact ((c4_dispatch [("name", .str "MoveTo"),
        ("args", .dict [("x", .num 10), ("y", .num 20)])] "MoveTo"
        [("x", .num 10), ("y", .num 20)] [] rfl rfl).1 "move_to" rfl).trans rfl
  · exact (c4_dispatch [("name", .str "Foo"), ("args", .dict [])] "Foo" [] [] rfl rfl).2 rfl

/-- C7: when the envelope's dpi field is absent (or null) the driver's
own dpi is retained by driver configuration; when it is present but does
not coerce to a number, the run fails with the hard numeric-coercion
error before any command entry is dispatched. -/
theorem c7_dpi (d : DriverState) (data : List (String × PyVal)) :
    ((pyDictGet data "dpi" = Option.none ∨ pyDictGet data "dpi" = some PyVal.none) →
      ∀ d', configure_driver d data = .ok d' → d'.dpi = d.dpi)
  ∧ (∀ v e wq hq, pyDictGet data "dpi" = some v → v.isNone = false →
      pyFloat v = .error e →
      pyFloat (pyOr (pyDictGetD data "width" (.num 0)) (.num 0)) = .ok wq →
      pyFloat (pyOr (pyDictGetD data "height" (.num 0)) (.num 0)) = .ok hq →
      interpreterRun d data = (d, [], some (.valueError "dpi must be numeric"))) := by
  constructor
  · intro hdpi d' hconf
    simp only [configure_driver] at hconf
    rcases hw : pyFloat (pyOr (pyDictGetD data "width" (.num 0)) (.num 0)) with e | wq <;>
      rw [hw] at hconf
    · exact absurd hconf (by simp)
    rcases hh : pyFloat (pyOr (pyDictGetD data "height" (.num 0)) (.num 0)) with e | hq <;>
      rw [hh] at hconf
    · exact absurd hconf (by simp)
    rcases hdpi with h | h <;> rw [h] at hconf
    · simp only [Except.ok.injEq] at hconf
      rw [← hconf]
      simp [set_label_context, configure_layout]
    · simp only [PyVal.isNone, if_true, Except.ok.injEq] at hconf
      rw [← hconf]
      simp [set_label_context, configure_layout]
  · intro v e wq hq hv hnone herr hw hh
    simp only [interpreterRun, configure_driver, hv, hnone, hw, hh, herr]
    simp [hnone]

theorem c7_dpi_witness :
    ((configure_driver {} []).map DriverState.dpi = .ok ({} : DriverState).dpi)
    ∧ interpreterRun {} [("dpi", .str "abc")] =
        ({}, [], some (.valueError "dpi must be numeric")) := by
  constructor
  · have hc : configure_driver ({} : DriverState) [] =
        .ok (set_label_context (configure_layout {} 0 0 "mm" "bottom-left" "up") 0 "mm"
          (configure_layout ({} : DriverState) 0 0 "mm" "bottom-left" "up").dpi) := rfl
    have h := (c7_dpi {} []).1 (Or.inl rfl) _ hc
    rw [hc]
    simp only [Except.map]
    exact congrArg Except.ok h
  · exact (c7_dpi {} [("dpi", .str "abc")]).2 (.str "abc")
      (.valueError "could not convert string to float") 0 0 rfl rfl rfl rfl rfl

/-- C8 counterexample: `set_layout` with `width=None` raises the float
coercion TypeError instead of defaulting the stored width to 0.0. -/
theorem c8_set_layout_counterexample :
    set_layout initLayout PyVal.none (.num 5) "mm" "bottom-left" "up" PyVal.none =
      .error (.typeError "float argument must be a string or a real number") := rfl

/-- C8 (amended): `set_layout` overwrites the layout's width, height,
units, origin and y_direction entries, coercing width/height with
`float()`; a numeric falsy value such as 0 stores 0.0, while a
non-coercible width/height (e.g. `None`) makes the call fail. -/
theorem c8_set_layout (layout : List (String × PyVal)) (w h : PyVal)
    (u o yd : String) (wq hq : Rat) :
    pyFloat w = .ok wq → pyFloat h = .ok hq →
    ∃ l', set_layout layout w h u o yd PyVal.none = .ok l'
      ∧ pyDictGet l' "width" = some (.num wq)
      ∧ pyDictGet l' "height" = some (.num hq)
      ∧ pyDictGet l' "units" = some (.str u)
      ∧ pyDictGet l' "origin" = some (.str o)
      ∧ pyDictGet l' "y_direction" = some (.str yd) := by
  intro hw hh
  refine ⟨pyDictSet (pyDictSet (pyDictSet (pyDictSet (pyDictSet layout "width" (.num wq))
    "height" (.num hq)) "units" (.str u)) "origin" (.str o)) "y_direction" (.str yd),
    ?_, ?_, ?_, ?_, ?_, ?_⟩
  · simp only [set_layout, hw, hh]
    rfl
  all_goals simp [pyDictGet_set]

theorem c8_set_layout_witness :
    pyDictGet ((set_layout initLayout (.num 0) (.num 7) "in" "top-left" "down"
      PyVal.none).toOption.getD []) "width" = some (.num 0) := by
  obtain ⟨l', hset, hwidth, -, -, -, -⟩ :=
    c8_set_layout initLayout (.num 0) (.num 7) "in" "top-left" "down" 0 7 rfl rfl
  rw [hset]
  simpa using hwidth

/-- C6: every successful render yields a non-empty command list that
starts with `Setup` (carrying the template's label name) and ends with
`PrintFeed`. -/
theorem c6_render_envelope (tmpl : XmlTemplate) (values : List (String × PyVal))
    (r : RenderResult) : render tmpl values = .ok r →
    r.commands ≠ [] ∧ r.commands.head? = some (.setup tmpl.label_name)
      ∧ r.commands.getLast? = some .printFeed := by
  intro h
  simp only [render] at h
  rcases hrg : renderGroups tmpl
      (values.map (fun p => (p.1, if p.2.isNone then "" else pyStr p.2))) {} tmpl.groups
    with e | ⟨s, body⟩ <;> rw [hrg] at h
  · exact absurd h (by simp)
  · simp only [Except.ok.injEq] at h
    rw [← h]
    refine ⟨by simp, rfl, ?_⟩
    show (Cmd.setup tmpl.label_name :: (body ++ [Cmd.printFeed])).getLast? = some Cmd.printFeed
    rw [show Cmd.setup tmpl.label_name :: (body ++ [Cmd.printFeed]) =
      (Cmd.setup tmpl.label_name :: body) ++ [Cmd.printFeed] from rfl]
    rw [List.getLast?_concat]

theorem c6_render_envelope_witness :
    ([Cmd.setup "w6", Cmd.printFeed] : List Cmd) ≠ [] ∧
      ([Cmd.setup "w6", Cmd.printFeed] : List Cmd).head? = some (.setup "w6") ∧
      ([Cmd.setup "w6", Cmd.printFeed] : List Cmd).getLast? = some .printFeed :=
  c6_render_envelope { label_name := "w6" } []
    { commands := [.setup "w6", .printFeed],
      layout := [("units", .str "mm"), ("origin", .str "bottom-left"),
        ("y_direction", .str "up"), ("width", .num 0), ("height", .num 0)],
      description := "" } rfl

/-- C3 counterexample: resolving a field text with an auto-numbered
positional placeholder raises IndexError — the formatting failure is not
swallowed and the literal text is not returned. -/
theorem c3_resolve_text_counterexample :
    resolve_text { text := some "Hello {}" } [] =
      .error (.indexError "Replacement index out of range") := rfl

/-- C3 (amended): resolving a field's text never raises KeyError or
ValueError — those formatting failures (e.g. an unresolved placeholder)
fall back to the literal composed text — and a successful format of a
brace-carrying text is returned as formatted; failures outside those two
classes (e.g. IndexError from a positional placeholder) propagate. -/
theorem c3_resolve_text (f : FieldAttrs) (vals : List (String × String)) :
    (∀ m, pyFormat (composed_text f vals) vals = .error (.keyError m) →
      resolve_text f vals = .ok (composed_text f vals))
  ∧ (∀ m, pyFormat (composed_text f vals) vals = .error (.valueError m) →
      resolve_text f vals = .ok (composed_text f vals))
  ∧ (∀ s, pyFormat (composed_text f vals) vals = .ok s →
      '{' ∈ (composed_text f vals).data ∧ '}' ∈ (composed_text f vals).data →
      resolve_text f vals = .ok s)
  ∧ (∀ m, resolve_text f vals ≠ .error (.keyError m)
      ∧ resolve_text f vals ≠ .error (.valueError m)) := by
  refine ⟨?_, ?_, ?_, ?_⟩
  · intro m hm
    simp only [resolve_text, format_text]
    by_cases hb : '{' ∈ (composed_text f vals).data ∧ '}' ∈ (composed_text f vals).data
    · rw [if_pos hb, hm]
    · rw [if_neg hb]
  · intro m hm
    simp only [resolve_text, format_text]
    by_cases hb : '{' ∈ (composed_text f vals).data ∧ '}' ∈ (composed_text f vals).data
    · rw [if_pos hb, hm]
    · rw [if_neg hb]
  · intro s hs hb
    simp only [resolve_text, format_text]
    rw [if_pos hb, hs]
  · intro m
    simp only [resolve_text, format_text]
    by_cases hb : '{' ∈ (composed_text f vals).data ∧ '}' ∈ (composed_text f vals).data
    · rw [if_pos hb]
      rcases hfmt : pyFormat (composed_text f vals) vals with e | sOk
      · rcases e with m' | m' | m' | m' | m' <;> simp
      · simp
    · rw [if_neg hb]
      simp

theorem c3_resolve_text_witness :
    resolve_text { text := some "Hello {NAME}" } [] = .ok "Hello {NAME}"
    ∧ resolve_text { text := some "Hello {NAME}" } [("NAME", "World")] = .ok "Hello World" := by
  constructor
  · exact (c3_resolve_text { text := some "Hello {NAME}" } []).1 "NAME" rfl
  · exact (c3_resolve_text { text := some "Hello {NAME}" } [("NAME", "World")]).2.2.1
      "Hello World" rfl (by decide)

theorem fontStep_cases (base : String) (s : RenderState) (font : Option String)
    (size : Option Rat) :
    fontStep base s font size = (s, []) ∨
    ∃ n q, fontStep base s font size =
        ({ s with font := some n, size := some q }, [.setFont n q])
      ∧ (s.font ≠ some n ∨ s.size ≠ some q) := by
  simp only [fontStep]
  split_ifs <;>
    first
      | exact Or.inl rfl
      | exact Or.inr ⟨_, _, rfl, by assumption⟩

theorem alignStep_cases (s : RenderState) (align : Option String) :
    alignStep s align = (s, []) ∨
    ∃ a, align = some a ∧ alignStep s align =
        ({ s with align := some a }, [.setAlignment a]) ∧ s.align ≠ some a := by
  cases align with
  | none => exact Or.inl rfl
  | some a =>
    simp only [alignStep]
    split_ifs with h
    · exact Or.inr ⟨a, rfl, rfl, h⟩
    · exact Or.inl rfl

theorem dirStep_cases (s : RenderState) (direction : Option String) :
    dirStep s direction = (s, []) ∨
    ∃ dd, direction = some dd ∧ dirStep s direction =
        ({ s with direction := some dd }, [.setDirection dd]) ∧ s.direction ≠ some dd := by
  cases direction with
  | none => exact Or.inl rfl
  | some dd =>
    simp only [dirStep]
    split_ifs with h
    · exact Or.inr ⟨dd, rfl, rfl, h⟩
    · exact Or.inl rfl

theorem fontStep_preserves (base : String) (s : RenderState) (font : Option String)
    (size : Option Rat) :
    (fontStep base s font size).1.align = s.align ∧
    (fontStep base s font size).1.direction = s.direction := by
  rcases fontStep_cases base s font size with h | ⟨n, q, h, -⟩ <;> rw [h] <;> exact ⟨rfl, rfl⟩

theorem alignStep_preserves (s : RenderState) (align : Option String) :
    (alignStep s align).1.font = s.font ∧ (alignStep s align).1.size = s.size ∧
    (alignStep s align).1.direction = s.direction := by
  rcases alignStep_cases s align with h | ⟨a, -, h, -⟩ <;> rw [h] <;> exact ⟨rfl, rfl, rfl⟩

theorem dirStep_preserves (s : RenderState) (direction : Option String) :
    (dirStep s direction).1.font = s.font ∧ (dirStep s direction).1.size = s.size ∧
    (dirStep s direction).1.align = s.align := by
  rcases dirStep_cases s direction with h | ⟨dd, -, h, -⟩ <;> rw [h] <;> exact ⟨rfl, rfl, rfl⟩

theorem update_state_eq (base : String) (s : RenderState) (font : Option String)
    (size : Option Rat) (align direction : Option String) :
    update_state base s font size align direction =
      ((dirStep (alignStep (fontStep base s font size).1 align).1 direction).1,
       (fontStep base s font size).2
         ++ (alignStep (fontStep base s font size).1 align).2
         ++ (dirStep (alignStep (fontStep base s font size).1 align).1 direction).2) := by
  unfold update_state
  rcases h1 : fontStep base s font size with ⟨s1, c1⟩
  rcases h2 : alignStep s1 align with ⟨s2, c2⟩
  rcases h3 : dirStep s2 direction with ⟨s3, c3⟩
  simp [h1, h2, h3]

/-- C1 counterexample: with base font "BaseF" and a first field using
explicit font "FontA", the second field (no font attribute) resolves to
the base font — a `SetFont "BaseF"` is emitted between the two fields —
rather than keeping the prior emitted font "FontA". -/
theorem c1_font_counterexample :
    render
        { label_name := "demo", base_font := "BaseF",
          groups := [{ elems := [
            .field { font := some "FontA", size := some "10", x := some "1",
                     y := some "2", text := some "hi" },
            .field { x := some "3", y := some "4", text := some "ho" }] }] }
        [] =
      .ok
        { commands := [.setup "demo",
            .setFont "FontA" 10, .moveTo 1 2, .drawText "hi",
            .setFont "BaseF" 10, .moveTo 3 4, .drawText "ho",
            .printFeed],
          layout := [("units", .str "mm"), ("origin", .str "bottom-left"),
            ("y_direction", .str "up"), ("width", .num 0), ("height", .num 0)],
          description := "" }
    ∧ "BaseF" ≠ "FontA" := ⟨rfl, by decide⟩

/-- C1 (amended): a field's font resolves to the explicit non-empty font
override when provided and otherwise to the template's base font — the
prior emitted render-state font is not consulted — and rendering the
field leaves that resolved font as the emitted state font. -/
theorem c1_font_resolution (tmpl : XmlTemplate) (vals : List (String × String))
    (s : RenderState) (f : FieldAttrs) (ox oy : Rat) (s' : RenderState)
    (cmds : List Cmd) :
    (∀ g, f.font = some g → g ≠ "" → field_font tmpl f = g)
  ∧ ((f.font = Option.none ∨ f.font = some "") → field_font tmpl f = tmpl.base_font)
  ∧ (render_field tmpl vals s f ox oy = .ok (s', cmds) → field_font tmpl f ≠ "" →
      s'.font = some (field_font tmpl f)) := by
  refine ⟨?_, ?_, ?_⟩
  · intro g hg hne
    simp [field_font, hg, hne]
  · rintro (h | h) <;> simp [field_font, h]
  · intro hr hne
    simp only [render_field] at hr
    rcases hres : resolve_text f vals with e | t <;> rw [hres] at hr
    · exact absurd hr (by simp)
    · simp only [Except.ok.injEq, Prod.mk.injEq] at hr
      have hfs : (fontStep tmpl.base_font s (some (field_font tmpl f))
          (field_size s f)).1.font = some (field_font tmpl f) := by
        simp only [fontStep, Option.getD_some]
        rw [if_pos (Or.inl hne), if_pos hne]
        split_ifs with hdiff
        · rfl
        · push_neg at hdiff
          exact hdiff.1
      rw [← hr.1, update_state_eq]
      rw [(dirStep_preserves _ _).1, (alignStep_preserves _ _).1, hfs]

theorem update_state_setFont_spec (base : String) (s : RenderState)
    (font : Option String) (size : Option Rat) (align direction : Option String)
    (n : String) (q : Rat) :
    .setFont n q ∈ (update_state base s font size align direction).2 →
      (s.font ≠ some n ∨ s.size ≠ some q) ∧
      (update_state base s font size align direction).1.font = some n ∧
      (update_state base s font size align direction).1.size = some q := by
  rw [update_state_eq]
  intro hmem
  rcases List.mem_append.mp hmem with hmem12 | hm3
  · rcases List.mem_append.mp hmem12 with hm1 | hm2
    · rcases fontStep_cases base s font size with hF | ⟨fn, fq, hF, hFne⟩
      · rw [hF] at hm1
        simp at hm1
      · rw [hF] at hm1
        simp only [List.mem_singleton, Cmd.setFont.injEq] at hm1
        obtain ⟨rfl, rfl⟩ := hm1
        refine ⟨hFne, ?_, ?_⟩
        · rw [(dirStep_preserves _ _).1, (alignStep_preserves _ _).1, hF]
        · rw [(dirStep_preserves _ _).2.1, (alignStep_preserves _ _).2.1, hF]
    · rcases alignStep_cases (fontStep base s font size).1 align with hA | ⟨a, -, hA, -⟩ <;>
        rw [hA] at hm2 <;> simp at hm2
  · rcases dirStep_cases (alignStep (fontStep base s font size).1 align).1 direction
      with hD | ⟨dd, -, hD, -⟩ <;> rw [hD] at hm3 <;> simp at hm3

theorem update_state_setAlignment_spec (base : String) (s : RenderState)
    (font : Option String) (size : Option Rat) (align direction : Option String)
    (a : String) :
    .setAlignment a ∈ (update_state base s font size align direction).2 →
      s.align ≠ some a ∧
      (update_state base s font size align direction).1.align = some a := by
  rw [update_state_eq]
  intro hmem
  rcases List.mem_append.mp hmem with hmem12 | hm3
  · rcases List.mem_append.mp hmem12 with hm1 | hm2
    · rcases fontStep_cases base s font size with hF | ⟨fn, fq, hF, -⟩ <;>
        rw [hF] at hm1 <;> simp at hm1
    · rcases alignStep_cases (fontStep base s font size).1 align with hA | ⟨a0, -, hA, hAne⟩
      · rw [hA] at hm2
        simp at hm2
      · rw [hA] at hm2
        simp only [List.mem_singleton, Cmd.setAlignment.injEq] at hm2
        subst hm2
        constructor
        · rw [(fontStep_preserves base s font size).1] at hAne
          exact hAne
        · rw [(dirStep_preserves _ _).2.2, hA]
  · rcases dirStep_cases (alignStep (fontStep base s font size).1 align).1 direction
      with hD | ⟨dd, -, hD, -⟩ <;> rw [hD] at hm3 <;> simp at hm3

theorem update_state_setDirection_spec (base : String) (s : RenderState)
    (font : Option String) (size : Option Rat) (align direction : Option String)
    (dd : String) :
    .setDirection dd ∈ (update_state base s font size align direction).2 →
      s.direction ≠ some dd ∧
      (update_state base s font size align direction).1.direction = some dd := by
  rw [update_state_eq]
  intro hmem
  rcases List.mem_append.mp hmem with hmem12 | hm3
  · rcases List.mem_append.mp hmem12 with hm1 | hm2
    · rcases fontStep_cases base s font size with hF | ⟨fn, fq, hF, -⟩ <;>
        rw [hF] at hm1 <;> simp at hm1
    · rcases alignStep_cases (fontStep base s font size).1 align with hA | ⟨a0, -, hA, -⟩ <;>
        rw [hA] at hm2 <;> simp at hm2
  · rcases dirStep_cases (alignStep (fontStep base s font size).1 align).1 direction
      with hD | ⟨dd0, -, hD, hDne⟩
    · rw [hD] at hm3
      simp at hm3
    · rw [hD] at hm3
      simp only [List.mem_singleton, Cmd.setDirection.injEq] at hm3
      subst hm3
      constructor
      · rw [(alignStep_preserves _ _).2.2, (fontStep_preserves base s font size).2] at hDne
        exact hDne
      · rw [hD]

/-- C2: a SetFont/SetAlignment/SetDirection command is emitted by the
state-diff update only when the resolved value differs from the current
render state, with the state updated to the emitted value; consequently
a field whose resolved font, size, alignment and direction all match the
current state renders as exactly `MoveTo` followed by `DrawText`, with
no set command emitted before them. -/
theorem c2_state_diff :
    (∀ (base : String) (s : RenderState) (font : Option String) (size : Option Rat)
        (align direction : Option String),
      (∀ n q, .setFont n q ∈ (update_state base s font size align direction).2 →
        (s.font ≠ some n ∨ s.size ≠ some q) ∧
        (update_state base s font size align direction).1.font = some n ∧
        (update_state base s font size align direction).1.size = some q)
      ∧ (∀ a, .setAlignment a ∈ (update_state base s font size align direction).2 →
        s.align ≠ some a ∧
        (update_state base s font size align direction).1.align = some a)
      ∧ (∀ dd, .setDirection dd ∈ (update_state base s font size align direction).2 →
        s.direction ≠ some dd ∧
        (update_state base s font size align direction).1.direction = some dd))
  ∧ (∀ (tmpl : XmlTemplate) (vals : List (String × String)) (s : RenderState)
        (f : FieldAttrs) (ox oy : Rat) (t : String),
      s.font = some (field_font tmpl f) →
      field_size s f = s.size →
      (f.align = Option.none ∨ f.align = s.align) →
      (f.dir = Option.none ∨ f.dir = s.direction) →
      (s.size = Option.none → field_font tmpl f = "") →
      resolve_text f vals = .ok t →
      render_field tmpl vals s f ox oy =
        .ok (s, [.moveTo (qAdd ox (to_float f.x 0)) (qAdd oy (to_float f.y 0)),
          .drawText t])) := by
  constructor
  · intro base s font size align direction
    exact ⟨fun n q => update_state_setFont_spec base s font size align direction n q,
      fun a => update_state_setAlignment_spec base s font size align direction a,
      fun dd => update_state_setDirection_spec base s font size align direction dd⟩
  · intro tmpl vals s f ox oy t hfont hsize halign hdir hsz hres
    have hfs : fontStep tmpl.base_font s (some (field_font tmpl f)) (field_size s f) =
        (s, []) := by
      by_cases hff : field_font tmpl f = ""
      · rcases hcs : s.size with _ | q
        · simp only [fontStep, Option.getD_some]
          rw [hsize, hcs, if_neg (by simp [hff])]
        · have hbase : tmpl.base_font = "" := by
            revert hff
            simp only [field_font]
            split_ifs with ha
            · exact fun hff => hff
            · exact fun hff => absurd hff ha
          rw [hff] at hfont
          simp only [fontStep, Option.getD_some]
          rw [hsize, hcs, hfont]
          simp [hff, hbase]
      · rcases hcs : s.size with _ | q
        · exact absurd (hsz hcs) hff
        · simp only [fontStep, Option.getD_some]
          rw [hsize, hcs]
          simp [hff, hfont, hcs]
    have has : alignStep s f.align = (s, []) := by
      rcases hfa : f.align with _ | a
      · rfl
      · rcases halign with h | h
        · rw [hfa] at h
          cases h
        · rw [hfa] at h
          simp only [alignStep]
          rw [if_neg (fun hne => hne h.symm)]
    have hds : dirStep s f.dir = (s, []) := by
      rcases hfd : f.dir with _ | dd
      · rfl
      · rcases hdir with h | h
        · rw [hfd] at h
          cases h
        · rw [hfd] at h
          simp only [dirStep]
          rw [if_neg (fun hne => hne h.symm)]
    simp only [render_field, update_state_eq, hfs, has, hds, hres]
    rfl

theorem c2_state_diff_witness :
    ((({} : RenderState).font ≠ some "F" ∨ ({} : RenderState).size ≠ some (8 : Rat))
      ∧ (update_state "B" {} (some "F") (some 8) Option.none Option.none).1.font = some "F"
      ∧ (update_state "B" {} (some "F") (some 8) Option.none Option.none).1.size =
          some (8 : Rat))
    ∧ render_field { base_font := "B" } []
        { font := some "F", size := some (8 : Rat) }
        { font := some "F", size := some "8", text := some "x" } 0 0 =
      .ok ({ font := some "F", size := some (8 : Rat) },
        [.moveTo (qAdd 0 (to_float Option.none 0)) (qAdd 0 (to_float Option.none 0)),
         .drawText "x"]) := by
  constructor
  · refine (c2_state_diff.1 "B" {} (some "F") (some 8) Option.none Option.none).1 "F" 8 ?_
    rw [show (update_state "B" {} (some "F") (some 8) Option.none Option.none).2 =
      [Cmd.setFont "F" 8] from rfl]
    exact List.mem_singleton.mpr rfl
  · exact c2_state_diff.2 { base_font := "B" } []
      { font := some "F", size := some (8 : Rat) }
      { font := some "F", size := some "8", text := some "x" } 0 0 "x"
      rfl rfl (Or.inl rfl) (Or.inl rfl) (fun h => nomatch h) rfl

theorem c1_font_resolution_witness :
    field_font { base_font := "BaseF" } { font := some "FontA" } = "FontA"
    ∧ field_font ({ base_font := "BaseF" } : XmlTemplate) ({} : FieldAttrs) = "BaseF"
    ∧ ({ font := some "BaseF", size := some (10 : Rat) } : RenderState).font =
        some "BaseF" := by
  refine ⟨?_, ?_, ?_⟩
  · exact (c1_font_resolution { base_font := "BaseF" } [] {} { font := some "FontA" }
      0 0 {} []).1 "FontA" rfl (by decide)
  · exact (c1_font_resolution { base_font := "BaseF" } [] {} {} 0 0 {} []).2.1 (Or.inl rfl)
  · exact (c1_font_resolution { base_font := "BaseF" } []
      { font := some "FontA", size := some (10 : Rat) }
      { x := some "3", y := some "4", text := some "ho" } 0 0
      { font := some "BaseF", size := some (10 : Rat) }
      [.setFont "BaseF" 10,
       .moveTo (qAdd 0 (to_float (some "3") 0)) (qAdd 0 (to_float (some "4") 0)),
       .drawText "ho"]).2.2 rfl (by decide)
